import Mathlib

/-!
Shallow embedding of the etag repository (src/routes/estore.ts and
src/public/script.js): identity resolution, the onboarding-step1 HTTP
handler, the redundant storage orchestrator, the data-clearing heuristic
and the fetch/retry orchestration, together with theorems settling the
frozen claims about them.

Modelling conventions:
- JavaScript strings are Lean `String` (all identifiers in play are ASCII,
  so UTF-16 length = character count).
- Optional / possibly-undefined values are `Option`.
- JavaScript string truthiness (undefined or empty string is falsy) is
  `jsTruthyStr`; numeric truthiness (null or 0 is falsy) is explicit in
  `jsScoreGt`.
- Numbers used for the integrity score are modelled as exact rationals.
- `crypto.randomBytes(16)` is modelled by passing the 16 produced bytes
  explicitly as an `entropy` argument; theorems that need it assume
  `entropy.length = 16`, which the library guarantees.
- SHA-256 is implemented bit-faithfully over lists of byte values
  (`Nat` modulo 2^32 word arithmetic), and strings are fed to it through
  their UTF-8 encoding, matching node's `createHash("sha256").update(s)`.
-/

/-- JavaScript truthiness of a possibly-undefined string: `undefined`,
`null` and the empty string are falsy. -/
def jsTruthyStr : Option String → Bool
  | none => false
  | some s => !(s == "")

/-- Lowercase hexadecimal digit for `n % 16`, as produced by node's
`Buffer.toString("hex")`. -/
def hexDigitChar (n : Nat) : Char :=
  if n % 16 < 10 then Char.ofNat (48 + n % 16) else Char.ofNat (87 + n % 16)

/-- A character accepted by the `[a-f0-9]` (case-insensitive) regex class. -/
def isHexChar (c : Char) : Bool :=
  (('0' ≤ c) && (c ≤ '9')) || (('a' ≤ c) && (c ≤ 'f')) || (('A' ≤ c) && (c ≤ 'F'))

/-- Hex-encode a byte list (two lowercase hex digits per byte), as
`Buffer.toString("hex")` does. -/
def hexEncodeBytes (bs : List Nat) : String :=
  ⟨bs.flatMap (fun b => [hexDigitChar (b / 16), hexDigitChar b])⟩

/-- Model of JavaScript `s.substring(0, n)`: the first `n` characters. -/
def strTake (s : String) (n : Nat) : String :=
  ⟨s.data.take n⟩

/-- The double-quote character. -/
def quoteChar : Char := '"'

/-- Wrap a string in double quotes, as the handler does to build the ETag
response header. -/
def quoteStr (s : String) : String :=
  ⟨quoteChar :: (s.data ++ [quoteChar])⟩

/-- Does the character list `pat` occur contiguously inside `l`? -/
def containsSeq (pat : List Char) : List Char → Bool
  | [] => pat.isEmpty
  | c :: rest => pat.isPrefixOf (c :: rest) || containsSeq pat rest

/-- Does the string `s` contain `pat` as a substring? -/
def strContains (s pat : String) : Bool :=
  containsSeq pat.data s.data

/-- UTF-8 encoding of a single character (code point), as a list of byte
values. -/
def utf8EncodeCharBytes (c : Char) : List Nat :=
  let n := c.toNat
  if n < 128 then [n]
  else if n < 2048 then [192 + n / 64, 128 + n % 64]
  else if n < 65536 then [224 + n / 4096, 128 + (n / 64) % 64, 128 + n % 64]
  else [240 + n / 262144, 128 + (n / 4096) % 64, 128 + (n / 64) % 64, 128 + n % 64]

/-- UTF-8 encoding of a string as a list of byte values, matching what
node's hash `update` consumes for a JavaScript string. -/
def utf8Encode (s : String) : List Nat :=
  s.data.flatMap utf8EncodeCharBytes

/-! SHA-256, over `Nat` words reduced modulo `2^32`. -/

/-- The SHA-256 word modulus, 2^32. -/
def M32 : Nat := 4294967296

/-- Right rotation of a 32-bit word. -/
def rotr32 (n x : Nat) : Nat :=
  ((x >>> n) ||| (x <<< (32 - n))) % M32

/-- SHA-256 small sigma 0. -/
def ssig0 (x : Nat) : Nat := rotr32 7 x ^^^ rotr32 18 x ^^^ (x >>> 3)

/-- SHA-256 small sigma 1. -/
def ssig1 (x : Nat) : Nat := rotr32 17 x ^^^ rotr32 19 x ^^^ (x >>> 10)

/-- SHA-256 big sigma 0. -/
def bsig0 (x : Nat) : Nat := rotr32 2 x ^^^ rotr32 13 x ^^^ rotr32 22 x

/-- SHA-256 big sigma 1. -/
def bsig1 (x : Nat) : Nat := rotr32 6 x ^^^ rotr32 11 x ^^^ rotr32 25 x

/-- SHA-256 choice function. -/
def shaCh (x y z : Nat) : Nat := (x &&& y) ^^^ ((x ^^^ 4294967295) &&& z)

/-- SHA-256 majority function. -/
def shaMaj (x y z : Nat) : Nat := (x &&& y) ^^^ (x &&& z) ^^^ (y &&& z)

/-- The 64 SHA-256 round constants. -/
def shaK : List Nat :=
  [1116352408, 1899447441, 3049323471, 3921009573,
   961987163, 1508970993, 2453635748, 2870763221,
   3624381080, 310598401, 607225278, 1426881987,
   1925078388, 2162078206, 2614888103, 3248222580,
   3835390401, 4022224774, 264347078, 604807628,
   770255983, 1249150122, 1555081692, 1996064986,
   2554220882, 2821834349, 2952996808, 3210313671,
   3336571891, 3584528711, 113926993, 338241895,
   666307205, 773529912, 1294757372, 1396182291,
   1695183700, 1986661051, 2177026350, 2456956037,
   2730485921, 2820302411, 3259730800, 3345764771,
   3516065817, 3600352804, 4094571909, 275423344,
   430227734, 506948616, 659060556, 883997877,
   958139571, 1322822218, 1537002063, 1747873779,
   1955562222, 2024104815, 2227730452, 2361852424,
   2428436474, 2756734187, 3204031479, 3329325298]

/-- The eight-word SHA-256 state. -/
structure Hash8 where
  a : Nat
  b : Nat
  c : Nat
  d : Nat
  e : Nat
  f : Nat
  g : Nat
  h : Nat
deriving Repr, DecidableEq

/-- The SHA-256 initial hash value. -/
def shaH0 : Hash8 :=
  ⟨1779033703, 3144134277, 1013904242, 2773480762, 1359893119, 2600822924, 528734635, 1541459225⟩

/-- Append the SHA-256 padding (a 0x80 byte, zeros, then the 64-bit
big-endian bit length) so that the total length is a multiple of 64. -/
def padMessage (msg : List Nat) : List Nat :=
  let len := msg.length
  let bitLen := len * 8
  let k := (119 - len % 64) % 64
  msg ++ [128] ++ List.replicate k 0 ++
    (List.range 8).reverse.map (fun i => (bitLen >>> (8 * i)) % 256)

/-- Split a byte list into 64-byte blocks. -/
def toBlocks (l : List Nat) : List (List Nat) :=
  if h : l.isEmpty then [] else l.take 64 :: toBlocks (l.drop 64)
termination_by l.length
decreasing_by
  simp only [List.length_drop]
  cases l with
  | nil => simp at h
  | cons x xs => simp only [List.length_cons]; omega

/-- Read the big-endian 32-bit word at word index `i` of a 64-byte block. -/
def wordAt (block : List Nat) (i : Nat) : Nat :=
  block.getD (4 * i) 0 * 16777216 + block.getD (4 * i + 1) 0 * 65536 +
    block.getD (4 * i + 2) 0 * 256 + block.getD (4 * i + 3) 0

/-- Extend a message-schedule word list by one word. -/
def nextW (acc : List Nat) : Nat :=
  let n := acc.length
  (ssig1 (acc.getD (n - 2) 0) + acc.getD (n - 7) 0 +
    ssig0 (acc.getD (n - 15) 0) + acc.getD (n - 16) 0) % M32

/-- One SHA-256 compression round. -/
def shaRound (st : Hash8) (kw : Nat × Nat) : Hash8 :=
  let t1 := (st.h + bsig1 st.e + shaCh st.e st.f st.g + kw.1 + kw.2) % M32
  let t2 := (bsig0 st.a + shaMaj st.a st.b st.c) % M32
  ⟨(t1 + t2) % M32, st.a, st.b, st.c, (st.d + t1) % M32, st.e, st.f, st.g⟩

/-- Process one 64-byte block. -/
def processBlock (hs : Hash8) (block : List Nat) : Hash8 :=
  let w16 := (List.range 16).map (wordAt block)
  let w := (List.range 48).foldl (fun acc _ => acc ++ [nextW acc]) w16
  let st := (shaK.zip w).foldl shaRound hs
  ⟨(hs.a + st.a) % M32, (hs.b + st.b) % M32, (hs.c + st.c) % M32, (hs.d + st.d) % M32,
   (hs.e + st.e) % M32, (hs.f + st.f) % M32, (hs.g + st.g) % M32, (hs.h + st.h) % M32⟩

/-- Big-endian bytes of a 32-bit word. -/
def wordBytesBE (x : Nat) : List Nat :=
  [(x >>> 24) % 256, (x >>> 16) % 256, (x >>> 8) % 256, x % 256]

/-- SHA-256 digest of a byte list, as 32 bytes. -/
def sha256Bytes (msg : List Nat) : List Nat :=
  let final := (toBlocks (padMessage msg)).foldl processBlock shaH0
  ([final.a, final.b, final.c, final.d, final.e, final.f, final.g, final.h]).flatMap wordBytesBE

/-- SHA-256 digest of a string (UTF-8 encoded), hex-encoded: the model of
node's `createHash("sha256").update(s).digest("hex")`. -/
def sha256Hex (s : String) : String :=
  hexEncodeBytes (sha256Bytes (utf8Encode s))


/-! Server side: src/routes/estore.ts. -/

namespace Qx7Manager

/-- Model of `Qx7Manager.isValidQx7Id`: a hex string (case-insensitive) of
at least 16 characters. (`undefined`/`null`/non-string inputs, which the
source rejects up front, are represented by callers passing the value only
when it is a string.) -/
def isValidQx7Id (qx7Id : String) : Bool :=
  decide (16 ≤ qx7Id.data.length) && qx7Id.data.all isHexChar

/-- Model of `Qx7Manager.generateQx7Id`. The `random` strategy hex-encodes
the 16 bytes produced by `crypto.randomBytes(16)`, passed here explicitly
as `entropy`; the `cognito` strategy is the SHA-256 hex digest of the
cognito user id, truncated to 32 characters. -/
def generateQx7Id (strategy : String) (cognitoUserId : String) (entropy : List Nat) : String :=
  match strategy with
  | "random" => hexEncodeBytes entropy
  | "cognito" => strTake (sha256Hex cognitoUserId) 32
  | _ => hexEncodeBytes entropy

/-- Model of `Qx7Manager.cleanEtag`: `null`/empty input gives `null`;
a value wrapped in double quotes is stripped of them (JavaScript
`slice(1, -1)`); anything else is passed through. -/
def cleanEtag (etag : Option String) : Option String :=
  match etag with
  | none => none
  | some s =>
    if s.data.isEmpty then none
    else if (decide (s.data.head? = some quoteChar)) && (decide (s.data.getLast? = some quoteChar)) then
      some ⟨(s.data.drop 1).dropLast⟩
    else some s

end Qx7Manager

/-- The resolution input extracted from the request headers
(`SignalBundle` in the spec): the argument record of
`resolveQx7IdAndMethod`. Missing headers are `none`; the integrity score
is an exact rational (`getNumericHeader` returns `null` for missing or
NaN values). -/
structure SignalBundle where
  isIncognito : Bool
  hasLimitedStorage : Bool
  cognitoUserId : Option String
  clientQx7Id : Option String
  dataCleared : Bool
  swIntegrityScore : Option ℚ
  returningFromAuth : Bool
  etagFromHeader : Option String
deriving Repr, DecidableEq

/-- The result record of `resolveQx7IdAndMethod`. The source declares
`qx7Id` as possibly `null` but assigns it on every path before returning,
so the model gives it the always-assigned type. -/
structure ResolveResult where
  qx7Id : String
  isReturning : Bool
  persistenceMethod : String
deriving Repr, DecidableEq

/-- JavaScript `score && score > t` for a possibly-null numeric score:
the score must be truthy (non-null and nonzero) and exceed `t`. -/
def jsScoreGt (score : Option ℚ) (t : ℚ) : Bool :=
  match score with
  | none => false
  | some q => (!(decide (q = 0))) && decide (t < q)

/-- The method chosen by the trusted-stored-id branch (the decision table
of lines 107-115 of estore.ts). -/
def trustMethod (cognitoUserId : Option String) (score : Option ℚ) : String :=
  if jsTruthyStr cognitoUserId && jsScoreGt score (7/10) then
    "cognito-localStorage-verified"
  else if jsScoreGt score (7/10) then
    "localStorage-verified"
  else if jsTruthyStr cognitoUserId then
    "cognito-localStorage-verified"
  else
    "localStorage"

/-- The body of the ETag branch (lines 119-124 of estore.ts), applied to
the cleaned ETag: accept it when truthy and valid, with the method picked
by the `verified` flag (`swIntegrityScore && swIntegrityScore > 0.5`). -/
def etagBranch (cleaned : Option String) (verified : Bool) : Option String × Bool × String :=
  match cleaned with
  | some ce =>
    if (!(ce == "")) && Qx7Manager.isValidQx7Id ce then
      (some ce, true, if verified then "etag-verified" else "etag")
    else (none, false, "new")
  | none => (none, false, "new")

/-- Does the ETag branch body accept the cleaned ETag? -/
def etagAccepts : Option String → Bool
  | some ce => (!(ce == "")) && Qx7Manager.isValidQx7Id ce
  | none => false

/-- The first two (stored-id and ETag) branches of `resolveQx7IdAndMethod`:
the `(qx7Id, isReturning, persistenceMethod)` triple after lines 102-125 of
src/routes/estore.ts, with `qx7Id` still possibly `null`. -/
def resolvePhase1 (sig : SignalBundle) : Option String × Bool × String :=
  if jsTruthyStr sig.clientQx7Id &&
      Qx7Manager.isValidQx7Id (sig.clientQx7Id.getD "") && !sig.dataCleared then
    (sig.clientQx7Id, true, trustMethod sig.cognitoUserId sig.swIntegrityScore)
  else if jsTruthyStr sig.etagFromHeader && !sig.dataCleared then
    etagBranch (Qx7Manager.cleanEtag sig.etagFromHeader) (jsScoreGt sig.swIntegrityScore (1/2))
  else (none, false, "new")

/-- The remaining strategies of `resolveQx7IdAndMethod` (the
`if (!qx7Id)` block, lines 128-151): privacy-mode fresh id, deterministic
cognito recovery, or a new random id. -/
def resolvePhase2 (sig : SignalBundle) (entropy : List Nat) : ResolveResult :=
  if sig.isIncognito || sig.hasLimitedStorage then
    ⟨Qx7Manager.generateQx7Id ("random") ("") entropy, false,
      if sig.isIncognito then "incognito-random" else "limited-storage-random"⟩
  else if jsTruthyStr sig.cognitoUserId && sig.returningFromAuth then
    ⟨Qx7Manager.generateQx7Id ("cognito") (sig.cognitoUserId.getD "") entropy, true,
      "cognito-post-auth-recovery"⟩
  else
    ⟨Qx7Manager.generateQx7Id ("random") ("") entropy, false, "new"⟩

/-- Model of `resolveQx7IdAndMethod` (src/routes/estore.ts lines 79-154),
with the bytes that `crypto.randomBytes(16)` would produce passed in as
`entropy`. -/
def resolveQx7IdAndMethod (sig : SignalBundle) (entropy : List Nat) : ResolveResult :=
  match resolvePhase1 sig with
  | (some id, ret, m) => ⟨id, ret, m⟩
  | (none, _, _) => resolvePhase2 sig entropy

/-- The JSON body of a 200 response from onboarding-step1. -/
structure Step1Body where
  qx7Id : String
  persistenceMethod : String
  isReturning : Bool
deriving Repr, DecidableEq

/-- The observable response of the onboarding-step1 handler: status, the
optional JSON body, and the headers it sets. -/
structure Step1Response where
  status : Nat
  body : Option Step1Body
  etagHeader : Option String
  cacheControl : Option String
  xQx7Id : Option String
  xPersistenceMethod : Option String
deriving Repr, DecidableEq

/-- The handler's 304 test (lines 219-225 of estore.ts): a truthy
`If-None-Match` header whose cleaned value equals the resolved id and
passes the Validator. -/
def handlerNotModifiedCheck (sig : SignalBundle) (resolvedId : String) : Bool :=
  if jsTruthyStr sig.etagFromHeader then
    match Qx7Manager.cleanEtag sig.etagFromHeader with
    | some ce => (ce == resolvedId) && Qx7Manager.isValidQx7Id ce
    | none => false
  else false

/-- Model of the non-erroring path of `router.get("/onboarding-step1")`
(src/routes/estore.ts lines 188-246): resolve, answer 304 with no body and
no headers when the cleaned `If-None-Match` equals the resolved id and
validates, otherwise answer 200 with the JSON body and the ETag /
Cache-Control / x-qx7-id / x-persistence-method headers. The fire-and-forget
analytics call and the console log have no effect on the response. -/
def onboardingStep1 (sig : SignalBundle) (entropy : List Nat) : Step1Response :=
  let r := resolveQx7IdAndMethod sig entropy
  if handlerNotModifiedCheck sig r.qx7Id then ⟨304, none, none, none, none, none⟩
  else
    ⟨200, some ⟨r.qx7Id, r.persistenceMethod, r.isReturning⟩,
      some (quoteStr r.qx7Id), some ("private, max-age=3600"),
      some r.qx7Id, some r.persistenceMethod⟩


/-! Client side: src/public/script.js. -/

/-- The five storage backend adapters, in the order of the initial
`STORAGE_PRIORITIES` list. -/
inductive StorageMethod where
  | localStorage
  | sessionStorage
  | indexedDB
  | cookies
  | serviceWorker
deriving Repr, DecidableEq

/-- The settled outcome of one adapter write promise: fulfilled with a
boolean, or rejected (only the indexedDB adapter can actually reject; the
others catch internally, but the model allows any pattern). -/
inductive WriteOutcome where
  | ok (b : Bool)
  | err
deriving Repr, DecidableEq

/-- The outcome of one adapter read: a value (`null` is `none`) or a
thrown error. -/
inductive ReadOutcome where
  | val (v : Option String)
  | err
deriving Repr, DecidableEq

/-- Result of a `setQx7Id` call: the returned boolean, the
`STORAGE_PRIORITIES` list after the call, and the adapters whose store
function was invoked. -/
structure WriteTrace where
  success : Bool
  newState : List StorageMethod
  attempted : List StorageMethod
deriving Repr, DecidableEq

/-- Result of a `getQx7Id` call: the returned id (or `null`), the
`STORAGE_PRIORITIES` list after the call, and the adapters whose get
function was invoked. -/
structure ReadTrace where
  result : Option String
  newState : List StorageMethod
  attempted : List StorageMethod
deriving Repr, DecidableEq

namespace Qx7Storage

/-- The initial `STORAGE_PRIORITIES` list. -/
def initialPriorities : List StorageMethod :=
  [StorageMethod.localStorage, StorageMethod.sessionStorage, StorageMethod.indexedDB,
   StorageMethod.cookies, StorageMethod.serviceWorker]

/-- Model of the client-side `Qx7Storage.isValidQx7Id`: a string of length
at least 16 whose characters all match `[a-f0-9]` case-insensitively
(`id && typeof id === "string" && id.length >= 16 && /^[a-f0-9]+$/i.test(id)`;
the length check makes the truthiness and nonempty-match conditions
redundant on strings). -/
def isValidQx7Id (id : String) : Bool :=
  decide (16 ≤ id.data.length) && id.data.all isHexChar

/-- The adapters whose store function `setQx7Id` invokes, given the
`priority` option and the current `STORAGE_PRIORITIES` state: each backend
guarded by its priority test, and indexedDB additionally by membership in
the active set. -/
def writeSelected (st : List StorageMethod) (priority : String) : List StorageMethod :=
  (if (priority == "all") || (priority == "localStorage") then [StorageMethod.localStorage] else []) ++
  (if (priority == "all") || (priority == "sessionStorage") then [StorageMethod.sessionStorage] else []) ++
  (if ((priority == "all") || (priority == "indexedDB")) && decide (StorageMethod.indexedDB ∈ st) then
    [StorageMethod.indexedDB] else []) ++
  (if (priority == "all") || (priority == "cookies") then [StorageMethod.cookies] else []) ++
  (if (priority == "all") || (priority == "serviceWorker") then [StorageMethod.serviceWorker] else [])

/-- Did the settled write promise fulfil with `true`? -/
def wroteOk : WriteOutcome → Bool
  | WriteOutcome.ok true => true
  | _ => false

/-- Model of `Qx7Storage.setQx7Id` (src/public/script.js lines 47-90):
reject invalid ids silently; otherwise fan out to the selected adapters,
settle all the promises (`Promise.allSettled` never throws, and one
adapter's rejection cannot stop another's write), and succeed iff at least
one promise fulfilled with `true`. The `STORAGE_PRIORITIES` state is never
changed by a write. -/
def setQx7Id (st : List StorageMethod) (qx7Id : String) (priority : String)
    (out : StorageMethod → WriteOutcome) : WriteTrace :=
  if !isValidQx7Id qx7Id then ⟨false, st, []⟩
  else
    let attempted := writeSelected st priority
    let successful := (attempted.filter (fun m => wroteOk (out m))).length
    ⟨decide (0 < successful), st, attempted⟩

/-- Was a read value truthy and valid (`id && this.isValidQx7Id(id)`)? -/
def foundId : Option String → Bool
  | none => false
  | some s => (!(s == "")) && isValidQx7Id s

/-- The `getQx7Id` loop over the priority list: returns the first truthy,
valid id; records the adapters attempted and whether indexedDB threw
(the source demotes indexedDB inside the catch; filtering the state once
at the end is equivalent because only indexedDB is ever removed). -/
def getGo (out : StorageMethod → ReadOutcome) : List StorageMethod → Option String × Bool × List StorageMethod
  | [] => (none, false, [])
  | m :: rest =>
    match out m with
    | ReadOutcome.err =>
      let r := getGo out rest
      (r.1, r.2.1 || decide (m = StorageMethod.indexedDB), m :: r.2.2)
    | ReadOutcome.val v =>
      if foundId v then (v, false, [m])
      else
        let r := getGo out rest
        (r.1, r.2.1, m :: r.2.2)

/-- Model of `Qx7Storage.getQx7Id` (src/public/script.js lines 27-45):
try the adapters in priority order, skip throwers and invalid values,
return the first valid id; an indexedDB throw removes indexedDB from
`STORAGE_PRIORITIES` for all later calls. -/
def getQx7Id (st : List StorageMethod) (out : StorageMethod → ReadOutcome) : ReadTrace :=
  let r := getGo out st
  ⟨r.1, if r.2.1 then st.filter (fun m => !(decide (m = StorageMethod.indexedDB))) else st, r.2.2⟩

end Qx7Storage

/-- The result record of `detectQx7DataClearing`. -/
structure DetectResult where
  dataCleared : Bool
  confidence : ℚ
  checks : List Bool
  clearedCount : Nat
  totalChecks : Nat
deriving Repr, DecidableEq

/-- Model of `detectQx7DataClearing` (src/public/script.js lines 389-452).
The first four probes (no stored id; no active-session marker; no
session-start marker; cache empty) always push a boolean; the service
worker probe pushes one only when a service worker registration is
reachable (`swRan`), with any exception counting as cleared. The probe
outcomes are the model's inputs; re-arming the session markers afterwards
does not affect the returned record. -/
def detectQx7DataClearing (p1 p2 p3 p4 : Bool) (swRan : Bool) (p5 : Bool) : DetectResult :=
  let checks := [p1, p2, p3, p4] ++ (if swRan then [p5] else [])
  let clearedCount := (checks.filter (fun b => b)).length
  ⟨decide (2 ≤ clearedCount), (clearedCount : ℚ) / (checks.length : ℚ),
    checks, clearedCount, checks.length⟩

/-- The outcome of one attempt of the fetch orchestration's try block: a
parsed 200 response body, or any thrown error (network failure, non-ok
HTTP status, ...). -/
inductive AttemptOutcome where
  | ok (d : Step1Body)
  | err
deriving Repr, DecidableEq

/-- The result record of `fetchEnhancedZkx`. -/
structure FetchResult where
  dataCleared : Bool
  data : Option Step1Body
  confidence : ℚ
  storageHealth : String
deriving Repr, DecidableEq

/-- An execution trace of `fetchEnhancedZkx`: its return value, the number
of attempts made, the backoff sleeps (in milliseconds, in order), and the
ids the client stored via `setQx7Id` along the way. -/
structure FetchTrace where
  result : FetchResult
  attemptsMade : Nat
  sleepsMs : List Nat
  storedIds : List String
deriving Repr, DecidableEq

/-- The retry loop of `fetchEnhancedZkx`: `attempt` is the loop counter,
`fuel` the remaining iterations allowed by the `while` guard (the guard
never actually terminates the loop, because the catch returns once
`attempt` reaches `maxRetries`). On success the id from the response is
persisted unless incognito; on failure the counter is bumped, the degraded
result is returned once 3 attempts failed, and otherwise the loop sleeps
`2^attempt` seconds before retrying. -/
def fetchGo (out : Nat → AttemptOutcome) (dc : Nat → Bool) (conf : Nat → ℚ)
    (health : String) (incog : Bool) : Nat → Nat → FetchTrace
  | _, 0 => ⟨⟨true, none, 0, "degraded"⟩, 0, [], []⟩
  | attempt, fuel + 1 =>
    match out attempt with
    | AttemptOutcome.ok d =>
      ⟨⟨dc attempt, some d, conf attempt, health⟩, attempt + 1, [],
        if incog then [] else [d.qx7Id]⟩
    | AttemptOutcome.err =>
      if 3 ≤ attempt + 1 then ⟨⟨true, none, 0, "degraded"⟩, attempt + 1, [], []⟩
      else
        let r := fetchGo out dc conf health incog (attempt + 1) fuel
        ⟨r.result, r.attemptsMade, (2 ^ (attempt + 1) * 1000) :: r.sleepsMs, r.storedIds⟩

/-- Model of `fetchEnhancedZkx` (src/public/script.js lines 454-528) as a
trace: the attempt outcomes, per-attempt data-clearing results, the
storage-health string and the incognito flag are inputs. -/
def fetchEnhancedZkx (out : Nat → AttemptOutcome) (dc : Nat → Bool) (conf : Nat → ℚ)
    (health : String) (incog : Bool) : FetchTrace :=
  fetchGo out dc conf health incog 0 3


/-- The guard of the trusted-stored-id branch (line 103 of estore.ts):
truthy `clientQx7Id` that validates, with `dataCleared` false. -/
def trustedBranch (sig : SignalBundle) : Bool :=
  jsTruthyStr sig.clientQx7Id &&
    Qx7Manager.isValidQx7Id (sig.clientQx7Id.getD "") && !sig.dataCleared

/-- The ETag-recovery branch fires and yields an id: the trusted branch
did not fire, the ETag header is truthy, `dataCleared` is false, and the
cleaned ETag is truthy and validates. -/
def etagRecovered (sig : SignalBundle) : Bool :=
  (!trustedBranch sig) && jsTruthyStr sig.etagFromHeader && !sig.dataCleared &&
    etagAccepts (Qx7Manager.cleanEtag sig.etagFromHeader)

/-- The claim-side reading of the integrity-score condition: the score is
present and exceeds `t` (no extra truthiness guard). -/
def integrityAbove (score : Option ℚ) (t : ℚ) : Bool :=
  match score with
  | none => false
  | some q => decide (t < q)

/-- The claim-side not-modified condition: the `If-None-Match` header,
after stripping surrounding quotes, equals the resolved id and passes the
Validator. -/
def notModifiedMatch (sig : SignalBundle) (resolvedId : String) : Bool :=
  match Qx7Manager.cleanEtag sig.etagFromHeader with
  | some ce => (ce == resolvedId) && Qx7Manager.isValidQx7Id ce
  | none => false


/-! Auxiliary lemmas about hex encoding, the validators and the hash. -/

theorem isHexChar_hexDigitChar (n : Nat) : isHexChar (hexDigitChar n) = true := by
  have h : n % 16 < 16 := Nat.mod_lt _ (by norm_num)
  unfold hexDigitChar isHexChar
  generalize n % 16 = r at h ⊢
  interval_cases r <;> decide

theorem hexEncodeBytes_data (bs : List Nat) :
    (hexEncodeBytes bs).data = bs.flatMap (fun b => [hexDigitChar (b / 16), hexDigitChar b]) := rfl

theorem hexEncodeBytes_length (bs : List Nat) :
    (hexEncodeBytes bs).data.length = 2 * bs.length := by
  rw [hexEncodeBytes_data]
  induction bs with
  | nil => rfl
  | cons b rest ih =>
    simp only [List.flatMap_cons, List.length_append, List.length_cons, List.length_nil, ih,
      List.length_cons]
    omega

theorem hexEncodeBytes_all_hex (bs : List Nat) :
    (hexEncodeBytes bs).data.all isHexChar = true := by
  rw [hexEncodeBytes_data]
  induction bs with
  | nil => rfl
  | cons b rest ih =>
    simp only [List.flatMap_cons, List.all_append, List.all_cons, List.all_nil,
      isHexChar_hexDigitChar, Bool.and_true, Bool.true_and, ih]

theorem isValid_hexEncodeBytes (bs : List Nat) (h : bs.length = 16) :
    Qx7Manager.isValidQx7Id (hexEncodeBytes bs) = true := by
  unfold Qx7Manager.isValidQx7Id
  rw [Bool.and_eq_true, hexEncodeBytes_all_hex]
  refine ⟨?_, rfl⟩
  rw [decide_eq_true_eq, hexEncodeBytes_length, h]
  omega

theorem sha256Bytes_length (m : List Nat) : (sha256Bytes m).length = 32 := by
  unfold sha256Bytes
  simp [wordBytesBE]

theorem sha256Hex_data_length (s : String) : (sha256Hex s).data.length = 64 := by
  unfold sha256Hex
  rw [hexEncodeBytes_length, sha256Bytes_length]

theorem isValid_sha256Take (s : String) :
    Qx7Manager.isValidQx7Id (strTake (sha256Hex s) 32) = true := by
  unfold Qx7Manager.isValidQx7Id strTake
  rw [Bool.and_eq_true]
  constructor
  · rw [decide_eq_true_eq]
    simp only [List.length_take, sha256Hex_data_length]
    omega
  · have hall := hexEncodeBytes_all_hex (sha256Bytes (utf8Encode s))
    unfold sha256Hex
    rw [List.all_eq_true] at hall ⊢
    intro c hc
    exact hall c (List.take_subset _ _ hc)

theorem isValid_ne_empty {s : String} (h : Qx7Manager.isValidQx7Id s = true) :
    (s == "") = false := by
  simp only [Qx7Manager.isValidQx7Id, Bool.and_eq_true, decide_eq_true_eq] at h
  cases hs : s == ""
  · rfl
  · exfalso
    have he : s = "" := eq_of_beq hs
    subst he
    simp at h

theorem generateQx7Id_random (c : String) (e : List Nat) :
    Qx7Manager.generateQx7Id ("random") c e = hexEncodeBytes e := rfl

theorem generateQx7Id_cognito (c : String) (e : List Nat) :
    Qx7Manager.generateQx7Id ("cognito") c e = strTake (sha256Hex c) 32 := rfl

theorem jsScoreGt_pos (score : Option ℚ) (t : ℚ) (ht : 0 < t) :
    jsScoreGt score t =
      match score with
      | none => false
      | some q => decide (t < q) := by
  cases score with
  | none => rfl
  | some q =>
    simp only [jsScoreGt]
    by_cases h : t < q
    · have hq : ¬ q = 0 := by
        intro h0
        rw [h0] at h
        exact absurd (lt_trans ht h) (lt_irrefl 0)
      simp [h, hq]
    · simp [h]

theorem jsScoreGt_eq_integrityAbove (score : Option ℚ) (t : ℚ) (ht : 0 < t) :
    jsScoreGt score t = integrityAbove score t := by
  rw [jsScoreGt_pos score t ht]
  rfl

theorem etagBranch_reject (cleaned : Option String) (v : Bool)
    (h : etagAccepts cleaned = false) : etagBranch cleaned v = (none, false, "new") := by
  cases cleaned with
  | none => rfl
  | some ce =>
    simp only [etagAccepts] at h
    simp only [etagBranch]
    rw [if_neg (by simp [h])]

theorem etagBranch_accept (cleaned : Option String) (v : Bool)
    (h : etagAccepts cleaned = true) :
    ∃ ce, cleaned = some ce ∧ Qx7Manager.isValidQx7Id ce = true ∧
      etagBranch cleaned v = (some ce, true, if v then "etag-verified" else "etag") := by
  cases cleaned with
  | none => exact absurd h (by simp [etagAccepts])
  | some ce =>
    simp only [etagAccepts] at h
    refine ⟨ce, rfl, ?_, ?_⟩
    · exact (Bool.and_eq_true _ _ |>.mp h).2
    · simp only [etagBranch]
      rw [if_pos h]

theorem phase1_trusted (sig : SignalBundle) (h : trustedBranch sig = true) :
    resolvePhase1 sig =
      (sig.clientQx7Id, true, trustMethod sig.cognitoUserId sig.swIntegrityScore) := by
  unfold trustedBranch at h
  unfold resolvePhase1
  simp only [h, if_true]

theorem phase1_not_trusted (sig : SignalBundle) (h1 : trustedBranch sig = false) :
    resolvePhase1 sig =
      (if jsTruthyStr sig.etagFromHeader && !sig.dataCleared then
        etagBranch (Qx7Manager.cleanEtag sig.etagFromHeader) (jsScoreGt sig.swIntegrityScore (1/2))
      else (none, false, "new")) := by
  unfold trustedBranch at h1
  unfold resolvePhase1
  rw [h1]
  rw [if_neg Bool.false_ne_true]

theorem phase1_none_of (sig : SignalBundle) (h1 : trustedBranch sig = false)
    (h2 : etagRecovered sig = false) : resolvePhase1 sig = (none, false, "new") := by
  rw [phase1_not_trusted sig h1]
  unfold etagRecovered at h2
  rw [h1] at h2
  simp only [Bool.not_false, Bool.true_and] at h2
  cases hg : (jsTruthyStr sig.etagFromHeader && !sig.dataCleared) with
  | false => rw [if_neg Bool.false_ne_true]
  | true =>
    rw [if_pos rfl]
    apply etagBranch_reject
    rcases Bool.and_eq_true _ _ |>.mp hg with ⟨hjt, hdc⟩
    rw [hjt, hdc] at h2
    simpa using h2

theorem phase1_valid (sig : SignalBundle) (id : String) (ret : Bool) (m : String)
    (h : resolvePhase1 sig = (some id, ret, m)) : Qx7Manager.isValidQx7Id id = true := by
  unfold resolvePhase1 at h
  cases h1 : (jsTruthyStr sig.clientQx7Id &&
      Qx7Manager.isValidQx7Id (sig.clientQx7Id.getD "") && !sig.dataCleared) with
  | true =>
    rw [if_pos h1] at h
    simp only [Prod.mk.injEq] at h
    obtain ⟨hfst, -⟩ := h
    simp only [Bool.and_eq_true] at h1
    obtain ⟨⟨-, hvalid⟩, -⟩ := h1
    rw [hfst] at hvalid
    simpa using hvalid
  | false =>
    rw [if_neg (by simp [h1])] at h
    cases h2 : (jsTruthyStr sig.etagFromHeader && !sig.dataCleared) with
    | false =>
      rw [if_neg (by simp [h2])] at h
      exact absurd h (by simp)
    | true =>
      rw [if_pos h2] at h
      cases h3 : etagAccepts (Qx7Manager.cleanEtag sig.etagFromHeader) with
      | false =>
        rw [etagBranch_reject _ _ h3] at h
        exact absurd h (by simp)
      | true =>
        obtain ⟨ce, -, hv, hb⟩ := etagBranch_accept _ (jsScoreGt sig.swIntegrityScore (1/2)) h3
        rw [hb] at h
        simp only [Prod.mk.injEq] at h
        obtain ⟨hid, -⟩ := h
        have hce : ce = id := by injection hid
        rw [← hce]
        exact hv

/-- C1: for every signal bundle in which `clientId` is a string passing the
Validator and `dataCleared` is false, resolution returns exactly that id
with `isReturning = true`, and the method follows the secondary decision
table on presence of a (truthy) `cognitoUserId` and `integrityScore > 0.7`:
both give cognito-localStorage-verified, only a high integrity score gives
localStorage-verified, only cognito gives cognito-localStorage-verified,
neither gives localStorage. -/
theorem resolve_trusted_stored_id (sig : SignalBundle) (entropy : List Nat) (s : String)
    (hs : sig.clientQx7Id = some s) (hv : Qx7Manager.isValidQx7Id s = true)
    (hdc : sig.dataCleared = false) :
    (resolveQx7IdAndMethod sig entropy).qx7Id = s ∧
    (resolveQx7IdAndMethod sig entropy).isReturning = true ∧
    (resolveQx7IdAndMethod sig entropy).persistenceMethod =
      (if jsTruthyStr sig.cognitoUserId && integrityAbove sig.swIntegrityScore (7/10) then
        "cognito-localStorage-verified"
      else if integrityAbove sig.swIntegrityScore (7/10) then
        "localStorage-verified"
      else if jsTruthyStr sig.cognitoUserId then
        "cognito-localStorage-verified"
      else
        "localStorage") := by
  have htb : trustedBranch sig = true := by
    unfold trustedBranch
    rw [hs, hdc]
    simp [jsTruthyStr, hv, isValid_ne_empty hv]
  unfold resolveQx7IdAndMethod
  rw [phase1_trusted sig htb, hs]
  refine ⟨rfl, rfl, ?_⟩
  show trustMethod sig.cognitoUserId sig.swIntegrityScore = _
  unfold trustMethod
  rw [jsScoreGt_eq_integrityAbove _ _ (by norm_num)]

/-- Witness for C1: a concrete bundle with a valid stored id, a cognito
user id and a high integrity score resolves to that id. -/
theorem resolve_trusted_stored_id_witness :
    (resolveQx7IdAndMethod
      ⟨false, false, some ("u1"), some ("abcdef0123456789"), false, some ((9:ℚ)/10), false, none⟩
      (List.replicate 16 0)).qx7Id = "abcdef0123456789" :=
  (resolve_trusted_stored_id _ _ _ rfl (by decide) rfl).1

/-- C2: resolution is a total function: for every combination of
`SignalBundle` fields (and any 16 bytes the random generator draws) the
resolved id is non-null and passes the Validator (hex, at least 16
characters). -/
theorem resolve_total_valid (sig : SignalBundle) (entropy : List Nat)
    (he : entropy.length = 16) :
    Qx7Manager.isValidQx7Id (resolveQx7IdAndMethod sig entropy).qx7Id = true := by
  unfold resolveQx7IdAndMethod
  rcases hp : resolvePhase1 sig with ⟨fst, ret, m⟩
  cases fst with
  | some id =>
    show Qx7Manager.isValidQx7Id id = true
    exact phase1_valid sig id ret m hp
  | none =>
    show Qx7Manager.isValidQx7Id (resolvePhase2 sig entropy).qx7Id = true
    unfold resolvePhase2
    split
    · show Qx7Manager.isValidQx7Id (Qx7Manager.generateQx7Id ("random") ("") entropy) = true
      rw [generateQx7Id_random]
      exact isValid_hexEncodeBytes entropy he
    · split
      · show Qx7Manager.isValidQx7Id
          (Qx7Manager.generateQx7Id ("cognito") (sig.cognitoUserId.getD "") entropy) = true
        rw [generateQx7Id_cognito]
        exact isValid_sha256Take _
      · show Qx7Manager.isValidQx7Id (Qx7Manager.generateQx7Id ("random") ("") entropy) = true
        rw [generateQx7Id_random]
        exact isValid_hexEncodeBytes entropy he

/-- Witness for C2: the empty bundle with concrete random bytes resolves
to a Validator-passing id. -/
theorem resolve_total_valid_witness :
    Qx7Manager.isValidQx7Id
      (resolveQx7IdAndMethod ⟨false, false, none, none, false, none, false, none⟩
        (List.replicate 16 0)).qx7Id = true :=
  resolve_total_valid _ _ (by decide)

/-- C3 counterexample: with `isIncognito = true` but a valid stored client
id and `dataCleared = false`, the trusted-stored-id branch wins: the
resolution returns the supplied id with `isReturning = true` and method
localStorage, so the claimed behaviour (isReturning false, a method
containing incognito, and an id differing from the supplied one) fails. -/
theorem resolve_incognito_counterexample :
    ¬ ((resolveQx7IdAndMethod
          ⟨true, false, none, some ("aaaaaaaaaaaaaaaa"), false, none, false, none⟩
          (List.replicate 16 0)).isReturning = false ∧
       strContains
          (resolveQx7IdAndMethod
            ⟨true, false, none, some ("aaaaaaaaaaaaaaaa"), false, none, false, none⟩
            (List.replicate 16 0)).persistenceMethod ("incognito") = true ∧
       (resolveQx7IdAndMethod
          ⟨true, false, none, some ("aaaaaaaaaaaaaaaa"), false, none, false, none⟩
          (List.replicate 16 0)).qx7Id ≠ "aaaaaaaaaaaaaaaa") := by
  decide

/-- C3 (amended): when `isIncognito = true` and neither the
trusted-stored-id branch nor the ETag branch supplied an id, resolution
returns `isReturning = false`, the method incognito-random (which contains
incognito), and the freshly minted id (the hex encoding of the random
bytes) rather than any supplied client id: it differs from the supplied
client id whenever that id is not the fresh encoding itself. -/
theorem resolve_incognito_fresh (sig : SignalBundle) (entropy : List Nat)
    (h1 : trustedBranch sig = false) (h2 : etagRecovered sig = false)
    (hi : sig.isIncognito = true) :
    (resolveQx7IdAndMethod sig entropy).isReturning = false ∧
    (resolveQx7IdAndMethod sig entropy).persistenceMethod = "incognito-random" ∧
    strContains (resolveQx7IdAndMethod sig entropy).persistenceMethod ("incognito") = true ∧
    (resolveQx7IdAndMethod sig entropy).qx7Id = hexEncodeBytes entropy ∧
    (∀ s, sig.clientQx7Id = some s → s ≠ hexEncodeBytes entropy →
      (resolveQx7IdAndMethod sig entropy).qx7Id ≠ s) := by
  have hres : resolveQx7IdAndMethod sig entropy =
      ⟨hexEncodeBytes entropy, false, "incognito-random"⟩ := by
    unfold resolveQx7IdAndMethod
    rw [phase1_none_of sig h1 h2]
    show resolvePhase2 sig entropy = _
    unfold resolvePhase2
    rw [hi]
    rw [if_pos (by simp)]
    rw [generateQx7Id_random]
    simp
  rw [hres]
  refine ⟨rfl, rfl, ?_, rfl, ?_⟩
  · show strContains ("incognito-random") ("incognito") = true
    decide
  · intro s _ hne hq
    exact hne hq.symm

/-- Witness for the amended C3: a concrete incognito bundle with no stored
id and no ETag gets the fresh random id with method incognito-random. -/
theorem resolve_incognito_fresh_witness :
    (resolveQx7IdAndMethod ⟨true, false, none, none, false, none, false, none⟩
      (List.replicate 16 0)).persistenceMethod = "incognito-random" :=
  (resolve_incognito_fresh _ _ (by decide) (by decide) rfl).2.1

/-- C4: whenever the deterministic-recovery branch applies (truthy cognito
user id, `returningFromAuth` true, no earlier branch matched), the returned
id is the SHA-256 hex digest of the cognito user id truncated to 32
characters, with `isReturning = true` and method cognito-post-auth-recovery;
and any two resolutions in that branch with the same cognito user id return
the same id, independently of every other signal and of the random bytes. -/
theorem resolve_det_recovery (sig : SignalBundle) (entropy : List Nat)
    (h1 : trustedBranch sig = false) (h2 : etagRecovered sig = false)
    (h3 : sig.isIncognito = false) (h4 : sig.hasLimitedStorage = false)
    (h5 : jsTruthyStr sig.cognitoUserId = true) (h6 : sig.returningFromAuth = true) :
    resolveQx7IdAndMethod sig entropy =
      ⟨strTake (sha256Hex (sig.cognitoUserId.getD "")) 32, true, "cognito-post-auth-recovery"⟩ ∧
    (∀ sig2 entropy2, trustedBranch sig2 = false → etagRecovered sig2 = false →
      sig2.isIncognito = false → sig2.hasLimitedStorage = false →
      jsTruthyStr sig2.cognitoUserId = true → sig2.returningFromAuth = true →
      sig2.cognitoUserId = sig.cognitoUserId →
      (resolveQx7IdAndMethod sig2 entropy2).qx7Id = (resolveQx7IdAndMethod sig entropy).qx7Id) := by
  have main : ∀ s e, trustedBranch s = false → etagRecovered s = false →
      s.isIncognito = false → s.hasLimitedStorage = false →
      jsTruthyStr s.cognitoUserId = true → s.returningFromAuth = true →
      resolveQx7IdAndMethod s e =
        ⟨strTake (sha256Hex (s.cognitoUserId.getD "")) 32, true, "cognito-post-auth-recovery"⟩ := by
    intro s e g1 g2 g3 g4 g5 g6
    unfold resolveQx7IdAndMethod
    rw [phase1_none_of s g1 g2]
    show resolvePhase2 s e = _
    unfold resolvePhase2
    rw [g3, g4]
    rw [if_neg (by simp)]
    rw [if_pos (by simp [g5, g6])]
    rw [generateQx7Id_cognito]
  refine ⟨main sig entropy h1 h2 h3 h4 h5 h6, ?_⟩
  intro sig2 entropy2 g1 g2 g3 g4 g5 g6 gc
  rw [main sig entropy h1 h2 h3 h4 h5 h6, main sig2 entropy2 g1 g2 g3 g4 g5 g6, gc]

/-- Witness for C4: two concrete bundles sharing the cognito user id but
differing in data-clearing, integrity score, stored id and random bytes
resolve to the same id. -/
theorem resolve_det_recovery_witness :
    (resolveQx7IdAndMethod
      ⟨false, false, some ("user1"), some ("ffff"), true, some ((9:ℚ)/10), true, none⟩
      (List.replicate 16 7)).qx7Id =
    (resolveQx7IdAndMethod
      ⟨false, false, some ("user1"), none, false, none, true, none⟩
      (List.replicate 16 0)).qx7Id :=
  (resolve_det_recovery _ (List.replicate 16 0) (by decide) (by decide) rfl rfl
      (by decide) rfl).2
    _ (List.replicate 16 7) (by decide) (by decide) rfl rfl (by decide) rfl rfl

theorem handlerNotModifiedCheck_eq (sig : SignalBundle) (id : String) :
    handlerNotModifiedCheck sig id = notModifiedMatch sig id := by
  unfold handlerNotModifiedCheck notModifiedMatch
  cases he : sig.etagFromHeader with
  | none => simp [jsTruthyStr, Qx7Manager.cleanEtag]
  | some e =>
    by_cases hne : e = ""
    · subst hne
      simp [jsTruthyStr, Qx7Manager.cleanEtag]
    · rw [if_pos (by simp [jsTruthyStr, hne])]

/-- C9: for every non-erroring request to onboarding-step1, the response
is 304 with no body exactly when the stripped `If-None-Match` equals the
resolved id and validates, and otherwise 200 with the JSON body
(qx7Id, persistenceMethod, isReturning) and the ETag (quoted id),
Cache-Control private max-age=3600, x-qx7-id and x-persistence-method
headers. -/
theorem onboardingStep1_spec (sig : SignalBundle) (entropy : List Nat) :
    onboardingStep1 sig entropy =
      (if notModifiedMatch sig (resolveQx7IdAndMethod sig entropy).qx7Id then
        ⟨304, none, none, none, none, none⟩
      else
        ⟨200, some ⟨(resolveQx7IdAndMethod sig entropy).qx7Id,
                    (resolveQx7IdAndMethod sig entropy).persistenceMethod,
                    (resolveQx7IdAndMethod sig entropy).isReturning⟩,
          some (quoteStr (resolveQx7IdAndMethod sig entropy).qx7Id),
          some ("private, max-age=3600"),
          some (resolveQx7IdAndMethod sig entropy).qx7Id,
          some (resolveQx7IdAndMethod sig entropy).persistenceMethod⟩) := by
  unfold onboardingStep1
  dsimp only
  rw [handlerNotModifiedCheck_eq]

/-- The trusted-branch decision table never produces an etag method. -/
theorem trustMethod_ne_etag (c : Option String) (s : Option ℚ)
    (h : trustMethod c s = "etag" ∨ trustMethod c s = "etag-verified") : False := by
  unfold trustMethod at h
  split at h
  · rcases h with h | h <;> exact absurd h (by decide)
  · split at h
    · rcases h with h | h <;> exact absurd h (by decide)
    · split at h
      · rcases h with h | h <;> exact absurd h (by decide)
      · rcases h with h | h <;> exact absurd h (by decide)

/-- The phase-2 strategies never produce an etag method. -/
theorem phase2_method_ne_etag (sig : SignalBundle) (entropy : List Nat)
    (h : (resolvePhase2 sig entropy).persistenceMethod = "etag" ∨
         (resolvePhase2 sig entropy).persistenceMethod = "etag-verified") : False := by
  unfold resolvePhase2 at h
  split at h
  · split at h
    · rcases h with h | h <;> exact absurd h (by simp)
    · rcases h with h | h <;> exact absurd h (by simp)
  · split at h
    · rcases h with h | h <;> exact absurd h (by simp)
    · rcases h with h | h <;> exact absurd h (by simp)

/-- Resolution goes through exactly one of: the trusted-stored-id branch,
the accepting ETag branch, or phase 2. -/
theorem resolve_cases (sig : SignalBundle) (entropy : List Nat) :
    (∃ s, sig.clientQx7Id = some s ∧
      resolveQx7IdAndMethod sig entropy =
        ⟨s, true, trustMethod sig.cognitoUserId sig.swIntegrityScore⟩) ∨
    (∃ ce, Qx7Manager.cleanEtag sig.etagFromHeader = some ce ∧
      Qx7Manager.isValidQx7Id ce = true ∧ jsTruthyStr sig.etagFromHeader = true ∧
      resolveQx7IdAndMethod sig entropy =
        ⟨ce, true, if jsScoreGt sig.swIntegrityScore (1/2) then "etag-verified" else "etag"⟩) ∨
    (resolveQx7IdAndMethod sig entropy = resolvePhase2 sig entropy) := by
  cases htb : trustedBranch sig with
  | true =>
    left
    have hex : ∃ s, sig.clientQx7Id = some s := by
      unfold trustedBranch at htb
      cases hc : sig.clientQx7Id with
      | none => rw [hc] at htb; simp [jsTruthyStr] at htb
      | some s => exact ⟨s, rfl⟩
    obtain ⟨s, hs⟩ := hex
    refine ⟨s, hs, ?_⟩
    unfold resolveQx7IdAndMethod
    rw [phase1_trusted sig htb, hs]
  | false =>
    cases hg : (jsTruthyStr sig.etagFromHeader && !sig.dataCleared) with
    | false =>
      right; right
      unfold resolveQx7IdAndMethod
      rw [phase1_not_trusted sig htb, if_neg (by simp [hg])]
    | true =>
      cases hacc : etagAccepts (Qx7Manager.cleanEtag sig.etagFromHeader) with
      | false =>
        right; right
        unfold resolveQx7IdAndMethod
        rw [phase1_not_trusted sig htb, if_pos hg,
          etagBranch_reject _ _ hacc]
      | true =>
        right; left
        obtain ⟨ce, hce, hval, hb⟩ :=
          etagBranch_accept _ (jsScoreGt sig.swIntegrityScore (1/2)) hacc
        refine ⟨ce, hce, hval, (Bool.and_eq_true _ _ |>.mp hg).1, ?_⟩
        unfold resolveQx7IdAndMethod
        rw [phase1_not_trusted sig htb, if_pos hg, hb]

/-- C10: whenever the resolver's ETag-recovery branch supplied the id
(method etag or etag-verified), the handler's conditional necessarily
matches and onboarding-step1 answers 304 with no body; consequently a 200
response never carries method etag or etag-verified. -/
theorem step1_etag_method_always_304 (sig : SignalBundle) (entropy : List Nat) :
    (((resolveQx7IdAndMethod sig entropy).persistenceMethod = "etag" ∨
      (resolveQx7IdAndMethod sig entropy).persistenceMethod = "etag-verified") →
      onboardingStep1 sig entropy = ⟨304, none, none, none, none, none⟩) ∧
    ((onboardingStep1 sig entropy).status = 200 →
      (resolveQx7IdAndMethod sig entropy).persistenceMethod ≠ "etag" ∧
      (resolveQx7IdAndMethod sig entropy).persistenceMethod ≠ "etag-verified") := by
  have main : ((resolveQx7IdAndMethod sig entropy).persistenceMethod = "etag" ∨
      (resolveQx7IdAndMethod sig entropy).persistenceMethod = "etag-verified") →
      onboardingStep1 sig entropy = ⟨304, none, none, none, none, none⟩ := by
    intro hm
    rcases resolve_cases sig entropy with ⟨s, -, hres⟩ | ⟨ce, hce, hval, hjt, hres⟩ | hres
    · rw [hres] at hm
      exact absurd hm (fun h => trustMethod_ne_etag _ _ h)
    · unfold onboardingStep1
      rw [hres]
      have hcheck : handlerNotModifiedCheck sig
          (ResolveResult.qx7Id ⟨ce, true,
            if jsScoreGt sig.swIntegrityScore (1/2) then "etag-verified" else "etag"⟩) = true := by
        show handlerNotModifiedCheck sig ce = true
        unfold handlerNotModifiedCheck
        rw [if_pos hjt, hce]
        show ((ce == ce) && Qx7Manager.isValidQx7Id ce) = true
        simp [hval]
      rw [if_pos hcheck]
    · rw [hres] at hm
      exact absurd hm (fun h => phase2_method_ne_etag _ _ h)
  refine ⟨main, ?_⟩
  intro h200
  constructor
  · intro he
    rw [main (Or.inl he)] at h200
    exact absurd h200 (by decide)
  · intro he
    rw [main (Or.inr he)] at h200
    exact absurd h200 (by decide)

/-- Witness for C10: a concrete request recovering its id from the ETag
header answers 304. -/
theorem step1_etag_method_always_304_witness :
    onboardingStep1 ⟨false, false, none, none, false, none, false,
        some ("\"abcdef0123456789\"")⟩ (List.replicate 16 0) =
      ⟨304, none, none, none, none, none⟩ :=
  (step1_etag_method_always_304 _ _).1 (Or.inl (by decide))

/-- C5: for every id and every pattern of adapter outcomes, the write
orchestrator returns true iff at least one selected adapter write
fulfilled with true; an id failing the Validator is rejected silently
(false, no adapter invoked); and the set of adapters attempted never
depends on any adapter's outcome (one failure cannot prevent another's
attempt). -/
theorem setQx7Id_spec (st : List StorageMethod) (id priority : String)
    (out : StorageMethod → WriteOutcome) :
    (Qx7Storage.isValidQx7Id id = false →
      Qx7Storage.setQx7Id st id priority out = ⟨false, st, []⟩) ∧
    (Qx7Storage.isValidQx7Id id = true →
      ((Qx7Storage.setQx7Id st id priority out).success = true ↔
        ∃ m ∈ Qx7Storage.writeSelected st priority, Qx7Storage.wroteOk (out m) = true)) ∧
    (∀ out2, (Qx7Storage.setQx7Id st id priority out).attempted =
      (Qx7Storage.setQx7Id st id priority out2).attempted) := by
  cases hv : Qx7Storage.isValidQx7Id id with
  | false =>
    refine ⟨fun _ => ?_, fun h => absurd h (by simp [hv]), fun out2 => ?_⟩
    · unfold Qx7Storage.setQx7Id
      rw [hv]
      rfl
    · unfold Qx7Storage.setQx7Id
      rw [hv]
      rfl
  | true =>
    refine ⟨fun h => absurd h (by simp [hv]), fun _ => ?_, fun out2 => ?_⟩
    · unfold Qx7Storage.setQx7Id
      rw [hv]
      show decide (0 < (List.filter _ _).length) = true ↔ _
      rw [decide_eq_true_eq]
      constructor
      · intro hlen
        obtain ⟨m, hm⟩ := List.length_pos_iff_exists_mem.mp hlen
        rw [List.mem_filter] at hm
        exact ⟨m, hm.1, hm.2⟩
      · intro ⟨m, hmem, hok⟩
        exact List.length_pos_iff_exists_mem.mpr ⟨m, List.mem_filter.mpr ⟨hmem, hok⟩⟩
    · unfold Qx7Storage.setQx7Id
      rw [hv]
      rfl

/-- Witness for C5: with one fulfilled adapter among four failures the
orchestrator write succeeds. -/
theorem setQx7Id_spec_witness :
    (Qx7Storage.setQx7Id Qx7Storage.initialPriorities ("aaaaaaaaaaaaaaaa") ("all")
      (fun m => if m = StorageMethod.cookies then WriteOutcome.ok true
        else WriteOutcome.err)).success = true :=
  ((setQx7Id_spec _ _ _ _).2.1 (by decide)).mpr
    ⟨StorageMethod.cookies, by decide, by decide⟩

theorem getGo_attempted_subset (out : StorageMethod → ReadOutcome) (l : List StorageMethod) :
    (Qx7Storage.getGo out l).2.2 ⊆ l := by
  induction l with
  | nil => simp [Qx7Storage.getGo]
  | cons m rest ih =>
    unfold Qx7Storage.getGo
    cases ho : out m with
    | err =>
      dsimp only
      intro x hx
      rw [List.mem_cons] at hx
      rcases hx with rfl | hx
      · exact List.mem_cons_self _ _
      · exact List.mem_cons_of_mem _ (ih hx)
    | val v =>
      dsimp only
      by_cases hf : Qx7Storage.foundId v = true
      · rw [if_pos hf]
        intro x hx
        simp at hx
        rw [hx]
        exact List.mem_cons_self _ _
      · rw [if_neg hf]
        dsimp only
        intro x hx
        rw [List.mem_cons] at hx
        rcases hx with rfl | hx
        · exact List.mem_cons_self _ _
        · exact List.mem_cons_of_mem _ (ih hx)

theorem getGo_throw_flag (out : StorageMethod → ReadOutcome) (l : List StorageMethod)
    (hmem : StorageMethod.indexedDB ∈ (Qx7Storage.getGo out l).2.2)
    (herr : out StorageMethod.indexedDB = ReadOutcome.err) :
    (Qx7Storage.getGo out l).2.1 = true := by
  induction l with
  | nil => simp [Qx7Storage.getGo] at hmem
  | cons m rest ih =>
    unfold Qx7Storage.getGo at hmem ⊢
    cases ho : out m with
    | err =>
      rw [ho] at hmem
      dsimp only at hmem ⊢
      by_cases hm : m = StorageMethod.indexedDB
      · rw [hm]
        simp
      · rw [List.mem_cons] at hmem
        rcases hmem with he | hmem
        · exact absurd he.symm hm
        · rw [ih hmem]
          simp
    | val v =>
      rw [ho] at hmem
      dsimp only at hmem ⊢
      by_cases hf : Qx7Storage.foundId v = true
      · rw [if_pos hf] at hmem ⊢
        exfalso
        simp at hmem
        rw [← hmem] at ho
        rw [herr] at ho
        exact absurd ho (by simp)
      · rw [if_neg hf] at hmem ⊢
        dsimp only at hmem ⊢
        rw [List.mem_cons] at hmem
        rcases hmem with he | hmem
        · exfalso
          rw [← he] at ho
          rw [herr] at ho
          exact absurd ho (by simp)
        · exact ih hmem

theorem getGo_no_throw (out : StorageMethod → ReadOutcome) (l : List StorageMethod)
    (h : StorageMethod.indexedDB ∉ l) : (Qx7Storage.getGo out l).2.1 = false := by
  induction l with
  | nil => rfl
  | cons m rest ih =>
    have hm : ¬ m = StorageMethod.indexedDB := by
      intro he
      exact h (by rw [← he]; exact List.mem_cons_self _ _)
    have hrest : StorageMethod.indexedDB ∉ rest := fun hr => h (List.mem_cons_of_mem _ hr)
    unfold Qx7Storage.getGo
    cases ho : out m with
    | err =>
      dsimp only
      rw [ih hrest]
      simp [hm]
    | val v =>
      dsimp only
      by_cases hf : Qx7Storage.foundId v = true
      · rw [if_pos hf]
      · rw [if_neg hf]
        dsimp only
        exact ih hrest

theorem writeSelected_idb_mem (st : List StorageMethod) (priority : String)
    (h : StorageMethod.indexedDB ∈ Qx7Storage.writeSelected st priority) :
    StorageMethod.indexedDB ∈ st := by
  unfold Qx7Storage.writeSelected at h
  simp only [List.mem_append] at h
  rcases h with ((((h | h) | h) | h) | h)
  · split at h
    · simp at h
    · simp at h
  · split at h
    · simp at h
    · simp at h
  · split at h
    · next hcond =>
      rcases Bool.and_eq_true _ _ |>.mp hcond with ⟨-, hmem⟩
      exact of_decide_eq_true hmem
    · simp at h
  · split at h
    · simp at h
    · simp at h
  · split at h
    · simp at h
    · simp at h

/-- C6 counterexample: a write in which the indexedDB adapter rejects does
not demote it: the active backend set is unchanged and the very next write
attempts indexedDB again, contradicting the claim that a throw during a
write removes it permanently. -/
theorem idb_write_throw_not_demoted :
    (Qx7Storage.setQx7Id Qx7Storage.initialPriorities ("aaaaaaaaaaaaaaaa") ("all")
      (fun m => if m = StorageMethod.indexedDB then WriteOutcome.err
        else WriteOutcome.ok false)).newState = Qx7Storage.initialPriorities ∧
    StorageMethod.indexedDB ∈
      (Qx7Storage.setQx7Id
        (Qx7Storage.setQx7Id Qx7Storage.initialPriorities ("aaaaaaaaaaaaaaaa") ("all")
          (fun m => if m = StorageMethod.indexedDB then WriteOutcome.err
            else WriteOutcome.ok false)).newState
        ("aaaaaaaaaaaaaaaa") ("all")
        (fun m => if m = StorageMethod.indexedDB then WriteOutcome.err
          else WriteOutcome.ok false)).attempted := by
  decide

/-- C6 (amended): an indexedDB throw during a read (getQx7Id) removes it
from the active backend set, and once absent it is never attempted again
and never restored, by reads or by writes; write failures alone do not
demote. -/
theorem idb_demotion_spec (st : List StorageMethod) (outR : StorageMethod → ReadOutcome)
    (outW : StorageMethod → WriteOutcome) (id priority : String) :
    ((StorageMethod.indexedDB ∈ (Qx7Storage.getQx7Id st outR).attempted ∧
      outR StorageMethod.indexedDB = ReadOutcome.err) →
      StorageMethod.indexedDB ∉ (Qx7Storage.getQx7Id st outR).newState) ∧
    (StorageMethod.indexedDB ∉ st →
      StorageMethod.indexedDB ∉ (Qx7Storage.getQx7Id st outR).attempted ∧
      (Qx7Storage.getQx7Id st outR).newState = st ∧
      StorageMethod.indexedDB ∉ (Qx7Storage.setQx7Id st id priority outW).attempted ∧
      (Qx7Storage.setQx7Id st id priority outW).newState = st) := by
  constructor
  · intro ⟨hmem, herr⟩
    unfold Qx7Storage.getQx7Id at hmem ⊢
    dsimp only at hmem ⊢
    have hthr := getGo_throw_flag outR st hmem herr
    rw [if_pos hthr]
    intro hin
    rw [List.mem_filter] at hin
    simp at hin
  · intro habs
    have hatt : StorageMethod.indexedDB ∉ (Qx7Storage.getGo outR st).2.2 :=
      fun hmem => habs (getGo_attempted_subset outR st hmem)
    refine ⟨hatt, ?_, ?_, ?_⟩
    · unfold Qx7Storage.getQx7Id
      dsimp only
      rw [getGo_no_throw outR st habs]
      rw [if_neg Bool.false_ne_true]
    · cases hv : Qx7Storage.isValidQx7Id id with
      | false =>
        have hrej : Qx7Storage.setQx7Id st id priority outW = ⟨false, st, []⟩ := by
          unfold Qx7Storage.setQx7Id
          rw [hv]
          rfl
        rw [hrej]
        simp
      | true =>
        intro hmem
        have : (Qx7Storage.setQx7Id st id priority outW).attempted =
            Qx7Storage.writeSelected st priority := by
          unfold Qx7Storage.setQx7Id
          rw [hv]
          rfl
        rw [this] at hmem
        exact habs (writeSelected_idb_mem st priority hmem)
    · cases hv : Qx7Storage.isValidQx7Id id with
      | false =>
        have hrej : Qx7Storage.setQx7Id st id priority outW = ⟨false, st, []⟩ := by
          unfold Qx7Storage.setQx7Id
          rw [hv]
          rfl
        rw [hrej]
      | true =>
        unfold Qx7Storage.setQx7Id
        rw [hv]
        rfl

/-- Witness for the amended C6: reading from the initial backend set with
indexedDB throwing leaves an active set without indexedDB. -/
theorem idb_demotion_spec_witness :
    StorageMethod.indexedDB ∉
      (Qx7Storage.getQx7Id Qx7Storage.initialPriorities
        (fun m => if m = StorageMethod.indexedDB then ReadOutcome.err
          else ReadOutcome.val none)).newState :=
  (idb_demotion_spec Qx7Storage.initialPriorities _
    (fun _ => WriteOutcome.ok false) ("aaaaaaaaaaaaaaaa") ("all")).1 ⟨by decide, by decide⟩

/-- C7: the heuristic reports dataCleared exactly when at least 2 probes
are positive (a fixed absolute threshold, whatever the number of probes
run), and confidence is the cleared count divided by the total probe
count; in particular exactly 2 positives give true and exactly 1 gives
false. -/
theorem detect_spec (p1 p2 p3 p4 swRan p5 : Bool) :
    ((detectQx7DataClearing p1 p2 p3 p4 swRan p5).dataCleared = true ↔
      2 ≤ (detectQx7DataClearing p1 p2 p3 p4 swRan p5).clearedCount) ∧
    (detectQx7DataClearing p1 p2 p3 p4 swRan p5).confidence =
      ((detectQx7DataClearing p1 p2 p3 p4 swRan p5).clearedCount : ℚ) /
        ((detectQx7DataClearing p1 p2 p3 p4 swRan p5).totalChecks : ℚ) ∧
    (detectQx7DataClearing p1 p2 p3 p4 swRan p5).totalChecks =
      (detectQx7DataClearing p1 p2 p3 p4 swRan p5).checks.length ∧
    ((detectQx7DataClearing p1 p2 p3 p4 swRan p5).clearedCount = 2 →
      (detectQx7DataClearing p1 p2 p3 p4 swRan p5).dataCleared = true) ∧
    ((detectQx7DataClearing p1 p2 p3 p4 swRan p5).clearedCount = 1 →
      (detectQx7DataClearing p1 p2 p3 p4 swRan p5).dataCleared = false) := by
  unfold detectQx7DataClearing
  dsimp only
  refine ⟨⟨of_decide_eq_true, fun h => decide_eq_true h⟩, rfl, rfl, ?_, ?_⟩
  · intro h
    rw [h]
    rfl
  · intro h
    rw [h]
    rfl

/-- Witness for C7: two positive probes out of four run yield
dataCleared = true. -/
theorem detect_spec_witness :
    (detectQx7DataClearing true true false false false false).dataCleared = true :=
  (detect_spec true true false false false false).2.2.2.1 (by decide)

/-- C8: the fetch orchestration makes at most 3 attempts, sleeps
2^attempt seconds (2000 ms then 4000 ms) between consecutive attempts,
and when every attempt fails returns exactly the degraded record
(dataCleared true, null data, zero confidence, storageHealth degraded)
without storing any client-side fallback identifier. -/
theorem fetch_spec (out : Nat → AttemptOutcome) (dc : Nat → Bool) (conf : Nat → ℚ)
    (health : String) (incog : Bool) :
    (fetchEnhancedZkx out dc conf health incog).attemptsMade ≤ 3 ∧
    (fetchEnhancedZkx out dc conf health incog).sleepsMs =
      (List.range ((fetchEnhancedZkx out dc conf health incog).attemptsMade - 1)).map
        (fun i => 2 ^ (i + 1) * 1000) ∧
    ((∀ i, i < 3 → out i = AttemptOutcome.err) →
      (fetchEnhancedZkx out dc conf health incog).result = ⟨true, none, 0, "degraded"⟩ ∧
      (fetchEnhancedZkx out dc conf health incog).storedIds = []) := by
  unfold fetchEnhancedZkx
  cases h0 : out 0 with
  | ok d =>
    have he : fetchGo out dc conf health incog 0 3 =
        ⟨⟨dc 0, some d, conf 0, health⟩, 1, [], if incog then [] else [d.qx7Id]⟩ := by
      simp [fetchGo, h0]
    rw [he]
    refine ⟨by norm_num, rfl, ?_⟩
    intro hall
    have hc := hall 0 (by norm_num)
    rw [h0] at hc
    exact absurd hc (by simp)
  | err =>
    cases h1 : out 1 with
    | ok d =>
      have he : fetchGo out dc conf health incog 0 3 =
          ⟨⟨dc 1, some d, conf 1, health⟩, 2, [2000], if incog then [] else [d.qx7Id]⟩ := by
        simp [fetchGo, h0, h1]
      rw [he]
      refine ⟨by norm_num, rfl, ?_⟩
      intro hall
      have hc := hall 1 (by norm_num)
      rw [h1] at hc
      exact absurd hc (by simp)
    | err =>
      cases h2 : out 2 with
      | ok d =>
        have he : fetchGo out dc conf health incog 0 3 =
            ⟨⟨dc 2, some d, conf 2, health⟩, 3, [2000, 4000], if incog then [] else [d.qx7Id]⟩ := by
          simp [fetchGo, h0, h1, h2]
        rw [he]
        refine ⟨by norm_num, rfl, ?_⟩
        intro hall
        have hc := hall 2 (by norm_num)
        rw [h2] at hc
        exact absurd hc (by simp)
      | err =>
        have he : fetchGo out dc conf health incog 0 3 =
            ⟨⟨true, none, 0, "degraded"⟩, 3, [2000, 4000], []⟩ := by
          simp [fetchGo, h0, h1, h2]
        rw [he]
        exact ⟨by norm_num, rfl, fun _ => ⟨rfl, rfl⟩⟩

/-- Witness for C8: with every attempt failing, the orchestration makes 3
attempts, sleeps 2 then 4 seconds, returns the degraded record and stores
nothing. -/
theorem fetch_spec_witness :
    (fetchEnhancedZkx (fun _ => AttemptOutcome.err) (fun _ => false) (fun _ => 0)
      ("ok") false).result = ⟨true, none, 0, "degraded"⟩ ∧
    (fetchEnhancedZkx (fun _ => AttemptOutcome.err) (fun _ => false) (fun _ => 0)
      ("ok") false).storedIds = [] :=
  (fetch_spec (fun _ => AttemptOutcome.err) (fun _ => false) (fun _ => 0)
    ("ok") false).2.2 (fun _ _ => rfl)
